import Mathlib

/-!
Shallow embedding of the torch-molecule graph-diffusion generator
(`torch_molecule/generator/graph_dit/modeling_graph_dit.py`) and of the
context-prediction encoder
(`torch_molecule/encoder/contextpred/modeling_contextpred.py`), together
with theorems settling the specification claims about them.

Floating-point tensors are embedded as exact rationals; Python dicts as
association lists; Python exceptions as an `Except PyError` result.
-/

namespace TorchMolecule

/-- Python exceptions that the embedded code can raise. -/
inductive PyError where
  | nameError (ident : String)
  | valueError (msg : String)
  | keyError (k : String)
  | typeError (msg : String)
  | assertionError
deriving DecidableEq

/-- Python values, as far as the embedded code needs them: checkpoints are
dicts holding numbers, strings, lists and nested dicts. -/
inductive PyVal where
  | pyNone
  | pyInt (n : Int)
  | pyRat (q : Rat)
  | pyStr (s : String)
  | pyBool (b : Bool)
  | pyList (xs : List PyVal)
  | pyDict (xs : List (String × PyVal))

/-- Lookup of a key in an embedded Python dict (first binding wins). -/
def dictLookup (d : List (String × PyVal)) (k : String) : Option PyVal :=
  (d.find? (fun kv => kv.1 == k)).map (fun kv => kv.2)

/-- Embedded `d[k]`: raises `KeyError` when the key is absent. -/
def dictGetItem (d : List (String × PyVal)) (k : String) : Except PyError PyVal :=
  match dictLookup d k with
  | some v => .ok v
  | none => .error (.keyError k)

/-- Embedded `d.get(k, default)`. -/
def dictGet (d : List (String × PyVal)) (k : String) (default : PyVal) : PyVal :=
  (dictLookup d k).getD default

/-- Embedded subscript on a value that must be a dict (`v[k]`). -/
def pySubscript (v : PyVal) (k : String) : Except PyError PyVal :=
  match v with
  | .pyDict d => dictGetItem d k
  | _ => .error (.typeError "object is not subscriptable")

/-- The model-parameter names read by `GraphDITMolecularGenerator._get_model_params`
(line 122-123 of `modeling_graph_dit.py`). -/
def graphDITModelParamKeys : List String :=
  ["max_node", "hidden_size", "num_layer", "num_head", "mlp_ratio",
   "dropout", "drop_condition", "X_dim", "E_dim", "y_dim", "task_type"]

/-- Embedded `GraphDITMolecularGenerator._get_model_params` (lines 121-130):
with a checkpoint, require the `hyperparameters` key and read each model
parameter out of it; without a checkpoint, read the attributes of `self`
(here passed as a dict of the estimator attributes). -/
def graphDITGetModelParams (self : List (String × PyVal))
    (checkpoint : Option (List (String × PyVal))) :
    Except PyError (List (String × PyVal)) :=
  match checkpoint with
  | some cp =>
      if (dictLookup cp "hyperparameters").isSome then do
        let hp ← dictGetItem cp "hyperparameters"
        graphDITModelParamKeys.mapM (fun k => (pySubscript hp k).map (fun v => (k, v)))
      else
        .error (.valueError "Checkpoint missing hyperparameters key")
  | none =>
      graphDITModelParamKeys.mapM (fun k => (dictGetItem self k).map (fun v => (k, v)))

/-- The model-parameter names (with their `self` fallbacks) read by
`ContextPredMolecularEncoder._get_model_params` (lines 113-144). -/
def contextPredModelParamKeys : List String :=
  ["num_layer", "hidden_size", "num_task", "drop_ratio", "norm_layer",
   "readout", "encoder_type", "mode", "csize", "neg_samples"]

/-- Embedded `ContextPredMolecularEncoder._get_model_params` (lines 113-144):
with a checkpoint, require the `hyperparameters` key and fall back to the
`self` attribute when a parameter is missing from it (`dict.get`);
without a checkpoint, read the attributes of `self`. -/
def contextPredGetModelParams (self : List (String × PyVal))
    (checkpoint : Option (List (String × PyVal))) :
    Except PyError (List (String × PyVal)) :=
  match checkpoint with
  | some cp =>
      if (dictLookup cp "hyperparameters").isSome then do
        let hp ← dictGetItem cp "hyperparameters"
        match hp with
        | .pyDict hpd =>
            .ok (contextPredModelParamKeys.map
              (fun k => (k, dictGet hpd k (dictGet self k .pyNone))))
        | _ => .error (.typeError "object is not subscriptable")
      else
        .error (.valueError "Checkpoint missing hyperparameters key")
  | none =>
      .ok (contextPredModelParamKeys.map (fun k => (k, dictGet self k .pyNone)))

/-! ### Dataset statistics and diffusion setup (`setup_diffusion_params`, `generate` preconditions) -/

/-- The dataset statistics dict (`dataset_info`) consumed by
`setup_diffusion_params` via `_get_diffusion_params` (lines 162-208). -/
structure DatasetStats where
  activeIndex : List Nat
  xMargins : List Rat
  eMargins : List Rat
  xeConditions : List (List (List Rat))
  atomDecoder : List String
  nodeDist : List Rat

/-- Arguments with which line 206 constructs `MarginalTransition`. -/
structure MarginalTransitionArgs where
  xLimit : List Rat
  eLimit : List Rat
  xeConditions : List (List Rat)
  exConditions : List (List Rat)
  yDim : Nat
  maxNode : Nat
deriving DecidableEq

/-- The late-bound attributes of `GraphDITMolecularGenerator` relevant to
generation. An `Option` field is `none` when the attribute is missing or
bound to `None` (the two cases the `not hasattr(...) or ... is None`
checks of `generate`, lines 398-401, treat alike). -/
structure GraphDITState where
  timesteps : Nat
  maxNode : Nat
  yDim : Nat
  datasetInfo : Option DatasetStats
  transitionModel : Option MarginalTransitionArgs
  limitDist : Option (List Rat × List Rat)
  noiseSchedule : Option Nat
  atomDecoder : Option (List String)

/-- A freshly constructed estimator: the dataclass (lines 24-66) declares
none of `transition_model`, `limit_dist`, `noise_schedule`, `atom_decoder`,
so all four attributes are absent before `setup_diffusion_params` runs. -/
def constructedGraphDIT (T maxN yDim : Nat) : GraphDITState :=
  { timesteps := T, maxNode := maxN, yDim := yDim, datasetInfo := none,
    transitionModel := none, limitDist := none, noiseSchedule := none,
    atomDecoder := none }

/-- Divide a vector by its sum (`v / v.sum()`). -/
def normalizeVec (v : List Rat) : List Rat := v.map (fun x => x / v.sum)

/-- Elementwise sum of two equal-length vectors. -/
def vecAdd (a b : List Rat) : List Rat := List.zipWith (· + ·) a b

/-- Sum a list of equal-length vectors (tensor `.sum(dim=1)` applied to one
slice); the embedding assumes at least the empty result for no rows. -/
def sumRows (rows : List (List Rat)) : List Rat :=
  match rows with
  | [] => []
  | r :: rs => rs.foldl vecAdd r

/-- Integer-index selection `xs[idx]` along the outer dimension; the model
assumes in-range indices, as the statistics computed from training data
provide. -/
def indexSelect {α : Type} [Inhabited α] (idx : List Nat) (xs : List α) : List α :=
  idx.map (fun i => xs.getD i default)

/-- Normalize every row of a matrix (`m / m.sum(dim=-1, keepdim=True)`). -/
def normalizeRows (m : List (List Rat)) : List (List Rat) := m.map normalizeVec

/-- Embedded `setup_diffusion_params` (lines 193-208): normalizes the node
and edge marginals into the limit distribution, restricts and row-sums the
pairwise conditionals, and assigns `timesteps`, `max_node`, `dataset_info`,
`transition_model`, `limit_dist` and `noise_schedule` on the estimator.
It assigns no `atom_decoder` attribute. -/
def setupDiffusionParams (st : GraphDITState) (info : DatasetStats)
    (T maxN : Nat) : GraphDITState :=
  let xLimit := normalizeVec info.xMargins
  let eLimit := normalizeVec info.eMargins
  let xeSel := (indexSelect info.activeIndex info.xeConditions).map
    (indexSelect info.activeIndex)
  let xeSummed := xeSel.map sumRows
  let xeC := normalizeRows xeSummed
  let exC := normalizeRows xeSummed.transpose
  { st with
    timesteps := T
    maxNode := maxN
    datasetInfo := some info
    transitionModel := some ⟨xLimit, eLimit, xeC, exC, st.yDim, maxN⟩
    limitDist := some (xLimit, eLimit)
    noiseSchedule := some T }

/-- The configuration checks at the head of `generate` (lines 398-401):
raise `ValueError` when `limit_dist` is absent or `None`, then when
`atom_decoder` is absent or `None`. -/
def generateCheckSetup (st : GraphDITState) : Except PyError Unit :=
  match st.limitDist with
  | none => .error (.valueError
      "Limit distribution not found. Please call setup_diffusion_params first.")
  | some _ =>
    match st.atomDecoder with
    | none => .error (.valueError
        "Atom decoder not found. Please call setup_diffusion_params first.")
    | some _ => .ok ()

/-- Concrete dataset statistics (two active atom types, two edge types)
used to exercise `setup_diffusion_params`. -/
def demoStats : DatasetStats :=
  { activeIndex := [0, 1]
    xMargins := [1/2, 1/2]
    eMargins := [3/4, 1/4]
    xeConditions := [[[1/4, 1/4], [1/4, 1/4]], [[1/4, 1/4], [1/4, 1/4]]]
    atomDecoder := ["C", "N"]
    nodeDist := [0, 1] }

/-! ### Training loop: per-step operations and the per-epoch loss history -/

/-- The observable operations a single training step performs, in order. -/
inductive TrainOp where
  | moveBatchToDevice
  | zeroGrad
  | buildNoisyBatch
  | computeLoss
  | backward
  | clipGradNorm (v : Rat)
  | optimizerStep
  | recordLoss
deriving DecidableEq

/-- The operations of one step of `ContextPredMolecularEncoder._train_epoch`
(lines 262-270): after `loss.backward()`, gradients are clipped exactly when
`grad_clip_value` is not `None`, and only then does the optimizer step. -/
def contextPredTrainStepOps (gradClipValue : Option Rat) : List TrainOp :=
  [.moveBatchToDevice, .zeroGrad, .computeLoss, .backward]
    ++ (match gradClipValue with
        | some v => [.clipGradNorm v]
        | none => [])
    ++ [.optimizerStep, .recordLoss]

/-- The operations of one step of `GraphDITMolecularGenerator._train_epoch`
(lines 291-306): `loss.backward()` is followed directly by
`optimizer.step()`; no gradient-clipping call appears for any value of
`grad_clip_value`. -/
def graphDITTrainStepOps (gradClipValue : Option Rat) : List TrainOp :=
  [.moveBatchToDevice, .zeroGrad, .buildNoisyBatch, .computeLoss, .backward,
   .optimizerStep, .recordLoss]

/-- The extra entries `GraphDITMolecularGenerator._setup_optimizers`
(lines 216-219) stores in the Adam parameter groups when `grad_clip_value`
is not `None`. -/
def adamParamGroupExtras (gradClipValue : Option Rat) : List (String × Rat) :=
  match gradClipValue with
  | some v => [("max_norm", v), ("norm_type", 2)]
  | none => []

/-- Modelled from the torch contract: the parameter-group keys
`torch.optim.Adam.step` reads; unknown keys such as `max_norm` are ignored
by the update rule. -/
def adamReadKeys : List String :=
  ["params", "lr", "betas", "eps", "weight_decay", "amsgrad", "maximize",
   "foreach", "capturable", "differentiable", "fused"]

/-- Whether an operation is a gradient-norm clip. -/
def isClipOp : TrainOp → Bool
  | .clipGradNorm _ => true
  | _ => false

/-- Whether some gradient clipping happens after backpropagation and before
the optimizer step in the given operation list. -/
def clipsBetweenBackwardAndStep (ops : List TrainOp) : Bool :=
  ((ops.dropWhile (fun op => decide (op ≠ TrainOp.backward))).takeWhile
    (fun op => decide (op ≠ TrainOp.optimizerStep))).any isClipOp

/-- Mean of a list of rationals, as `numpy.mean` computes it on a nonempty
list. -/
def meanQ (l : List Rat) : Rat := l.sum / l.length

/-- The `fitting_loss` history produced by `GraphDITMolecularGenerator.fit`
(lines 270-276): reset to `[]`, then one `np.mean(train_losses)` appended
per epoch, where `epochLosses e` is the list of per-batch losses
`_train_epoch` returns for epoch `e`. -/
def graphDITFitLossHistory (epochs : Nat) (epochLosses : Nat → List Rat) : List Rat :=
  (List.range epochs).map (fun e => meanQ (epochLosses e))

/-- The `fitting_loss` history produced by `ContextPredMolecularEncoder.fit`
(lines 230-237), of the same shape as the generator loop. -/
def contextPredFitLossHistory (epochs : Nat) (epochLosses : Nat → List Rat) : List Rat :=
  (List.range epochs).map (fun e => meanQ (epochLosses e))

/-! ### `apply_noise`: timestep sampling and normalization -/

/-- The timestep quantities computed at the head of `apply_noise`
(lines 314-318) for one batch example whose uniform draw is `draw`. -/
structure NoisyTimesteps where
  tInt : Int
  sInt : Int
  tFloat : Rat
  sFloat : Rat
deriving DecidableEq

/-- Embedded lines 314-318 of `apply_noise`: `t_int` is the draw, `s_int`
is `t_int - 1`, and both are divided by `timesteps`. -/
def applyNoiseTimesteps (timesteps : Nat) (draw : Nat) : NoisyTimesteps :=
  { tInt := draw
    sInt := (draw : Int) - 1
    tFloat := (draw : Rat) / timesteps
    sFloat := ((draw : Rat) - 1) / timesteps }

/-- Modelled from the torch contract for line 314: `torch.randint(0, T + 1)`
draws uniformly from the half-open range `[0, T + 1)`, so each of
`0, ..., T` has probability `1 / (T + 1)`. -/
def randintProb (timesteps k : Nat) : Rat :=
  if k ≤ timesteps then 1 / (timesteps + 1) else 0

/-! ### `sample_p_zs_given_zt`: zero-row floor and classifier-free guidance -/

/-- The floor constant `1e-5` used throughout `sample_p_zs_given_zt`. -/
def floor5 : Rat := 1 / 100000

/-- Embedded `torch.clamp_min`. -/
def clampMin (x c : Rat) : Rat := max x c

/-- Embedded lines 480-481 of `sample_p_zs_given_zt`, restricted to one row
of the unnormalized posterior: a row whose entries sum to exactly zero has
every entry replaced by `1e-5`; other rows are left unchanged. -/
def floorZeroRow (r : List Rat) : List Rat :=
  if r.sum = 0 then r.map (fun _ => floor5) else r

/-- The tensor-level form of lines 480-481: the floor applied to every row. -/
def floorZeroRows (rows : List (List Rat)) : List (List Rat) :=
  rows.map floorZeroRow

/-- Embedded lines 483-488: divide each row by its sum after the floor. -/
def normalizePosteriorRow (r : List Rat) : List Rat :=
  (floorZeroRow r).map (fun x => x / (floorZeroRow r).sum)

/-- One entry of the guided (unnormalized) distribution, lines 500-507:
`uncon * (cond / uncon.clamp_min(1e-5)) ** guide_scale`. The float power is
embedded at integer exponents, where `**` is exact iterated multiplication. -/
def guideEntry (gamma : Int) (cond uncon : Rat) : Rat :=
  uncon * (cond / clampMin uncon floor5) ^ gamma

/-- One row of the guided distribution before renormalization. -/
def guideRowUnnorm (gamma : Int) (cond uncon : List Rat) : List Rat :=
  List.zipWith (guideEntry gamma) cond uncon

/-- Embedded lines 500-509 on one row: the guided row divided by its sum
clamped below by `1e-5`. -/
def guideRowCode (gamma : Int) (cond uncon : List Rat) : List Rat :=
  (guideRowUnnorm gamma cond uncon).map
    (fun x => x / clampMin (guideRowUnnorm gamma cond uncon).sum floor5)

/-- The guidance formula exactly as the claim states it (for comparison
with `guideRowCode`): `uncon * (cond / uncon) ** guide_scale`, renormalized
by the plain row sum. -/
def guideRowClaim (gamma : Int) (cond uncon : List Rat) : List Rat :=
  let g := List.zipWith (fun c u => u * (c / u) ^ gamma) cond uncon
  g.map (fun x => x / g.sum)

/-- The branch condition of line 496:
`self.guide_scale is not None and self.guide_scale != 1`. -/
def guidanceActive (guideScale : Option Int) : Bool :=
  match guideScale with
  | none => false
  | some gamma => decide (gamma ≠ 1)

/-- How many network passes (`get_prob` calls, hence `self.model` calls)
lines 493-499 make: the conditioned pass always, the unconditioned pass
only inside the guidance branch. -/
def networkPasses (guideScale : Option Int) : Nat :=
  if guidanceActive guideScale then 2 else 1

/-- Embedded lines 493-509 on one row: the conditioned row is reweighted by
the unconditioned row exactly when the guidance branch is taken, and is
returned unchanged otherwise. -/
def guidanceStep (guideScale : Option Int) (cond uncon : List Rat) : List Rat :=
  match guideScale with
  | none => cond
  | some gamma => if gamma = 1 then cond else guideRowCode gamma cond uncon

/-! ### Generation: tensors, symmetry asserts, the reverse loop -/

/-- One batch element of the generation state: a one-hot node tensor
`(n, dX)` and a one-hot edge tensor `(n, n, dE)`, embedded as functions. -/
structure GenState (n dX dE : Nat) where
  X : Fin n → Fin dX → Rat
  E : Fin n → Fin n → Fin dE → Rat

/-- Embedded `torch.transpose(E, 1, 2)` on one batch element. -/
def transposeE {n dE : Nat} (E : Fin n → Fin n → Fin dE → Rat) :
    Fin n → Fin n → Fin dE → Rat :=
  fun i j k => E j i k

/-- Embedded `(E == torch.transpose(E, 1, 2)).all()`. -/
def symmE {n dE : Nat} (E : Fin n → Fin n → Fin dE → Rat) : Bool :=
  (List.finRange n).all fun i =>
    (List.finRange n).all fun j =>
      (List.finRange dE).all fun k => decide (E i j k = E j i k)

/-- Embedded `F.one_hot` of per-node class indices. -/
def oneHotX {n : Nat} (dX : Nat) (sX : Fin n → Nat) : Fin n → Fin dX → Rat :=
  fun i k => if k.val = sX i then 1 else 0

/-- Embedded `F.one_hot` of per-edge class indices. -/
def oneHotE {n : Nat} (dE : Nat) (sE : Fin n → Fin n → Nat) :
    Fin n → Fin n → Fin dE → Rat :=
  fun i j k => if k.val = sE i j then 1 else 0

/-- Modelled from the spec: `PlaceHolder.mask` zeroes node rows beyond the
valid node mask. -/
def maskX {n dX : Nat} (m : Fin n → Bool) (X : Fin n → Fin dX → Rat) :
    Fin n → Fin dX → Rat :=
  fun i k => if m i then X i k else 0

/-- Modelled from the spec: `PlaceHolder.mask` zeroes edge entries whose
either endpoint lies beyond the valid node mask. -/
def maskE {n dE : Nat} (m : Fin n → Bool) (E : Fin n → Fin n → Fin dE → Rat) :
    Fin n → Fin n → Fin dE → Rat :=
  fun i j k => if m i && m j then E i j k else 0

/-- Modelled from the spec: `sample_discrete_feature_noise` draws one
category per node and per node pair from the stationary limit distribution
and returns the one-hot graph masked to valid nodes; the categorical draws
are passed in explicitly as `drawX`, `drawE`. -/
def sampleLimitNoise {n : Nat} (dX dE : Nat) (m : Fin n → Bool)
    (drawX : Fin n → Nat) (drawE : Fin n → Fin n → Nat) : GenState n dX dE :=
  { X := maskX m (oneHotX dX drawX), E := maskE m (oneHotE dE drawE) }

/-- Embedded lines 403-408 of `generate`: draw `z_T` from the limit
distribution, then assert that its edge tensor equals its transpose. -/
def generateInit {n : Nat} (dX dE : Nat) (m : Fin n → Bool)
    (drawX : Fin n → Nat) (drawE : Fin n → Fin n → Nat) :
    Except PyError (GenState n dX dE) :=
  let zT := sampleLimitNoise dX dE m drawX drawE
  if symmE zT.E then .ok zT else .error .assertionError

/-- Embedded lines 511-521 of `sample_p_zs_given_zt` (the code after the
categorical draw): one-hot encode the sampled classes, assert the edge
tensor is symmetric, then mask to valid nodes and return. -/
def samplePZsTail {n : Nat} (dX dE : Nat) (m : Fin n → Bool)
    (sX : Fin n → Nat) (sE : Fin n → Fin n → Nat) :
    Except PyError (GenState n dX dE) :=
  let Xs := oneHotX dX sX
  let Es := oneHotE dE sE
  if symmE Es then .ok { X := maskX m Xs, E := maskE m Es }
  else .error .assertionError

/-- The names bound in the scope of `sample_p_zs_given_zt` when line 493
executes: the function parameters (line 436-437) and the locals assigned on
lines 441-455 (`bs, n, _ = X_t.shape`, the three schedule quantities,
`noisy_data`, and the inner function `get_prob`). -/
def samplePZsScope : List String :=
  ["self", "s", "t", "X_t", "E_t", "properties", "node_mask",
   "bs", "n", "_", "beta_t", "alpha_s_bar", "alpha_t_bar",
   "noisy_data", "get_prob"]

/-- Python name resolution: a name evaluates in a scope only when bound
there; otherwise a `NameError` is raised. -/
def resolveName (scope : List String) (ident : String) : Except PyError Unit :=
  if ident ∈ scope then .ok () else .error (.nameError ident)

/-- Embedded dynamic semantics of `sample_p_zs_given_zt` from line 493 on:
Python resolves the callee `get_prob`, then the arguments `noisy_data` and
`text_embedding` left to right. The final branch is dead code, since
`text_embedding` is bound nowhere in the function scope. -/
def samplePZsGivenZtRun {n dX dE : Nat} (state : GenState n dX dE) :
    Except PyError (GenState n dX dE) :=
  match resolveName samplePZsScope "get_prob" with
  | .error e => .error e
  | .ok _ =>
    match resolveName samplePZsScope "noisy_data" with
    | .error e => .error e
    | .ok _ =>
      match resolveName samplePZsScope "text_embedding" with
      | .error e => .error e
      | .ok _ => .ok state

/-- The `s_int` values of the reverse loop of `generate` (line 412):
`reversed(range(0, timesteps))`. -/
def generateScheduleS (T : Nat) : List Nat := (List.range T).reverse

/-- The `(t_int, s_int)` pairs of the reverse loop in iteration order
(lines 412-414: `t_array = s_array + 1`). -/
def generateSchedule (T : Nat) : List (Nat × Nat) :=
  (generateScheduleS T).map (fun s => (s + 1, s))

/-- Index of the largest entry of a list (first maximum wins), scanning
with the running best index and value. -/
def argmaxQAux (i bi : Nat) (bv : Rat) : List Rat → Nat
  | [] => bi
  | x :: xs => if bv < x then argmaxQAux (i + 1) i x xs else argmaxQAux (i + 1) bi bv xs

/-- Embedded `torch.argmax` over the last dimension of a row. -/
def argmaxQ : List Rat → Nat
  | [] => 0
  | x :: xs => argmaxQAux 1 0 x xs

/-- Modelled from the spec: `PlaceHolder.mask(node_mask, collapse=True)`
collapses the final distributions to hard discrete assignments by argmax
and masks entries beyond the valid node count to class 0. -/
def collapseMask {n dX dE : Nat} (m : Fin n → Bool) (g : GenState n dX dE) :
    (Fin n → Nat) × (Fin n → Fin n → Nat) :=
  (fun i => if m i then argmaxQ ((List.finRange dX).map (g.X i)) else 0,
   fun i j => if m i && m j then argmaxQ ((List.finRange dE).map (g.E i j)) else 0)

/-- Embedded dynamic semantics of `generate` (lines 398-424) for one batch
element, with the categorical draws of the initial noise passed in
explicitly: run the setup checks, draw and assert `z_T`, then iterate
`sample_p_zs_given_zt` over the reverse schedule and collapse the last
sample. When `timesteps = 0` the loop body never runs, so line 423 reads
the unbound loop variable `sampled_s`. -/
def generateRun {n : Nat} (dX dE : Nat) (st : GraphDITState) (T : Nat)
    (m : Fin n → Bool) (drawX : Fin n → Nat) (drawE : Fin n → Fin n → Nat) :
    Except PyError ((Fin n → Nat) × (Fin n → Fin n → Nat)) :=
  match generateCheckSetup st with
  | .error e => .error e
  | .ok _ =>
    match generateInit dX dE m drawX drawE with
    | .error e => .error e
    | .ok zT =>
      match T with
      | 0 => .error (.nameError "sampled_s")
      | _ =>
        match (generateSchedule T).foldlM
            (fun acc _ => samplePZsGivenZtRun acc) zT with
        | .error e => .error e
        | .ok lastSample => .ok (collapseMask m lastSample)

/-! ### Helper lemmas -/

/-- Summing a row divided entrywise by a constant. -/
lemma sum_map_div (l : List Rat) (s : Rat) :
    (l.map (fun x => x / s)).sum = l.sum / s := by
  induction l with
  | nil => simp
  | cons a t ih => simp [ih, add_div]

/-- The elementwise-equality assert on the edge tensor holds exactly when
the tensor is symmetric in its node indices. -/
lemma symmE_iff {n dE : Nat} (E : Fin n → Fin n → Fin dE → Rat) :
    symmE E = true ↔ ∀ i j k, E i j k = E j i k := by
  simp [symmE, List.all_eq_true, List.mem_finRange]

/-- Masking valid-node pairs preserves symmetry of the edge tensor. -/
lemma maskE_symm {n dE : Nat} (m : Fin n → Bool)
    (E : Fin n → Fin n → Fin dE → Rat) (h : ∀ i j k, E i j k = E j i k) :
    ∀ i j k, maskE m E i j k = maskE m E j i k := by
  intro i j k
  unfold maskE
  rw [Bool.and_comm (m j) (m i), h i j k]

/-- One-hot encoding of a symmetric index matrix is symmetric. -/
lemma oneHotE_symm {n : Nat} (dE : Nat) (sE : Fin n → Fin n → Nat)
    (h : ∀ i j, sE i j = sE j i) :
    ∀ i j k, oneHotE dE sE i j k = oneHotE dE sE j i k := by
  intro i j k
  unfold oneHotE
  rw [h i j]

/-- The embedded denoising step always raises the `text_embedding`
`NameError` of line 493. -/
lemma samplePZsGivenZtRun_eq {n dX dE : Nat} (state : GenState n dX dE) :
    samplePZsGivenZtRun state = .error (.nameError "text_embedding") := rfl

/-- Folding the embedded denoising step over a nonempty schedule raises the
`text_embedding` `NameError` at the very first iteration. -/
lemma foldlM_samplePZs_error {n dX dE : Nat} (l : List (Nat × Nat))
    (hne : l ≠ []) (z : GenState n dX dE) :
    l.foldlM (fun acc _ => samplePZsGivenZtRun acc) z =
      .error (.nameError "text_embedding") := by
  cases l with
  | nil => exact absurd rfl hne
  | cons p r =>
    rw [List.foldlM_cons, samplePZsGivenZtRun_eq]
    rfl

/-- The loop schedule of `generate` peels off its first iteration. -/
lemma generateScheduleS_succ (T : Nat) :
    generateScheduleS (T + 1) = T :: generateScheduleS T := by
  simp [generateScheduleS, List.range_succ]

/-! ### Claim theorems -/

/-- Claim C10: for every checkpoint mapping lacking the `hyperparameters` key,
`_get_model_params` raises `ValueError` immediately, in both the generator
and the encoder estimators. -/
theorem c10_checkpoint_missing_hyperparameters
    (selfG selfC cp : List (String × PyVal))
    (h : dictLookup cp "hyperparameters" = none) :
    graphDITGetModelParams selfG (some cp) =
      .error (.valueError "Checkpoint missing hyperparameters key") ∧
    contextPredGetModelParams selfC (some cp) =
      .error (.valueError "Checkpoint missing hyperparameters key") := by
  constructor
  · simp [graphDITGetModelParams, h]
  · simp [contextPredGetModelParams, h]

/-- Witness for C10: the concrete checkpoint holding only weights (no
`hyperparameters` key) is rejected by both estimators. -/
theorem c10_witness :
    graphDITGetModelParams [] (some [("model_state_dict", PyVal.pyNone)]) =
      .error (.valueError "Checkpoint missing hyperparameters key") ∧
    contextPredGetModelParams [] (some [("model_state_dict", PyVal.pyNone)]) =
      .error (.valueError "Checkpoint missing hyperparameters key") :=
  c10_checkpoint_missing_hyperparameters [] [] [("model_state_dict", PyVal.pyNone)] rfl

/-- Claim C4 (code bug): a fresh estimator raises the limit-distribution
`ValueError` as claimed, but an estimator on which `setup_diffusion_params`
has completed still raises the atom-decoder `ValueError`, because
`setup_diffusion_params` assigns no `atom_decoder` attribute — contrary to
the claim that the configuration error is raised only when setup was
skipped. -/
theorem c4_generate_raises_after_setup :
    generateCheckSetup (constructedGraphDIT 500 50 1) =
      .error (.valueError
        "Limit distribution not found. Please call setup_diffusion_params first.") ∧
    generateCheckSetup (setupDiffusionParams (constructedGraphDIT 500 50 1) demoStats 500 50) =
      .error (.valueError
        "Atom decoder not found. Please call setup_diffusion_params first.") ∧
    (∀ (st : GraphDITState) (info : DatasetStats) (T maxN : Nat),
      (setupDiffusionParams st info T maxN).atomDecoder = st.atomDecoder) :=
  ⟨rfl, rfl, fun _ _ _ _ => rfl⟩

/-- Claim C9 (code bug): the encoder clips the gradient norm between `backward`
and the optimizer step exactly when `grad_clip_value` is set, but the
generator performs no clipping for any `grad_clip_value`; it only stores
`max_norm`/`norm_type` entries in the Adam parameter groups, which the Adam
step does not read. -/
theorem c9_generator_never_clips :
    (∀ v : Rat, clipsBetweenBackwardAndStep (contextPredTrainStepOps (some v)) = true) ∧
    clipsBetweenBackwardAndStep (contextPredTrainStepOps none) = false ∧
    (∀ g : Option Rat, clipsBetweenBackwardAndStep (graphDITTrainStepOps g) = false) ∧
    clipsBetweenBackwardAndStep (graphDITTrainStepOps (some 1)) = false ∧
    adamParamGroupExtras (some 1) = [("max_norm", 1), ("norm_type", 2)] ∧
    "max_norm" ∉ adamReadKeys :=
  ⟨fun _ => rfl, rfl, fun _ => rfl, rfl, rfl, by decide⟩

/-- Claim C6: every invocation of the embedded `sample_p_zs_given_zt` dynamic
semantics fails with `NameError` for `text_embedding` before producing a
sample, because `text_embedding` is bound nowhere in the function scope. -/
theorem c6_text_embedding_unbound :
    ∀ (n dX dE : Nat) (state : GenState n dX dE),
      samplePZsGivenZtRun state = .error (.nameError "text_embedding") ∧
      "text_embedding" ∉ samplePZsScope :=
  fun _ _ _ state => ⟨samplePZsGivenZtRun_eq state, by decide⟩

/-- Claim C5: in the reverse-sampling step, a row of the unnormalized posterior
summing to exactly zero is replaced by the uniform floor `1e-5` in every
entry, other rows are untouched, and (for nonnegative rows, as the
posterior rows are) the floored row always has positive sum, so the
subsequent renormalization never divides by zero and yields a row summing
to one. -/
theorem c5_zero_sum_rows_floored (r : List Rat) (hne : r ≠ [])
    (hnn : ∀ x ∈ r, 0 ≤ x) :
    (r.sum = 0 → floorZeroRow r = r.map (fun _ => floor5)) ∧
    (r.sum ≠ 0 → floorZeroRow r = r) ∧
    0 < (floorZeroRow r).sum ∧
    (normalizePosteriorRow r).sum = 1 := by
  have hpos : 0 < (floorZeroRow r).sum := by
    by_cases h : r.sum = 0
    · have hlen : 0 < (r.length : Rat) := by
        exact_mod_cast List.length_pos.mpr hne
      have : (floorZeroRow r).sum = (r.length : Rat) * floor5 := by
        simp [floorZeroRow, h, List.map_const', List.sum_replicate, nsmul_eq_mul]
      rw [this]
      have : (0 : Rat) < floor5 := by norm_num [floor5]
      positivity
    · have hge : 0 ≤ r.sum := List.sum_nonneg hnn
      have : floorZeroRow r = r := by simp [floorZeroRow, h]
      rw [this]
      exact lt_of_le_of_ne hge (Ne.symm h)
  refine ⟨fun h => by simp [floorZeroRow, h], fun h => by simp [floorZeroRow, h],
    hpos, ?_⟩
  unfold normalizePosteriorRow
  rw [sum_map_div, div_self (ne_of_gt hpos)]

/-- Witness for C5: the all-zero two-entry row is floored to the uniform
`1e-5` row, its floored sum is positive, and its renormalization sums to
one. -/
theorem c5_witness :
    floorZeroRow [0, 0] = [floor5, floor5] ∧
    0 < (floorZeroRow [0, 0]).sum ∧
    (normalizePosteriorRow [0, 0]).sum = 1 :=
  ⟨(c5_zero_sum_rows_floored [0, 0] (by simp) (by norm_num)).1 (by norm_num),
   (c5_zero_sum_rows_floored [0, 0] (by simp) (by norm_num)).2.2.1,
   (c5_zero_sum_rows_floored [0, 0] (by simp) (by norm_num)).2.2.2⟩

/-- Claim C8: after a completed `fit` with `e` epochs (which requires `e ≥ 1`,
since both loops read the loop variable after the loop), `fitting_loss` is
a list of exactly `e` entries whose `i`-th entry is the mean of the
per-batch losses of epoch `i`, for both the generator and the encoder
estimators. -/
theorem c8_fitting_loss_history (e : Nat) (he : 1 ≤ e)
    (lossesG lossesC : Nat → List Rat) :
    (graphDITFitLossHistory e lossesG).length = e ∧
    (contextPredFitLossHistory e lossesC).length = e ∧
    (∀ i, i < e → (graphDITFitLossHistory e lossesG)[i]? = some (meanQ (lossesG i))) ∧
    (∀ i, i < e → (contextPredFitLossHistory e lossesC)[i]? = some (meanQ (lossesC i))) := by
  refine ⟨by simp [graphDITFitLossHistory], by simp [contextPredFitLossHistory],
    fun i hi => ?_, fun i hi => ?_⟩
  · simp [graphDITFitLossHistory, List.getElem?_range, hi]
  · simp [contextPredFitLossHistory, List.getElem?_range, hi]

/-- Witness for C8: two epochs with concrete batch losses yield a history
of length two whose first entry is the first epoch's batch-loss mean. -/
theorem c8_witness :
    (graphDITFitLossHistory 2 (fun _ => [1, 2])).length = 2 ∧
    (graphDITFitLossHistory 2 (fun _ => [1, 2]))[0]? = some (meanQ [1, 2]) ∧
    (contextPredFitLossHistory 2 (fun _ => [3]))[1]? = some (meanQ [3]) :=
  ⟨(c8_fitting_loss_history 2 (by decide) (fun _ => [1, 2]) (fun _ => [3])).1,
   (c8_fitting_loss_history 2 (by decide) (fun _ => [1, 2]) (fun _ => [3])).2.2.1 0 (by decide),
   (c8_fitting_loss_history 2 (by decide) (fun _ => [1, 2]) (fun _ => [3])).2.2.2 1 (by decide)⟩

/-- Claim C7 counterexample: `apply_noise` draws `t_int` from `{0, ..., T}`
(`torch.randint(0, T + 1)`), so `t_int = 0` has positive probability, and
there `s_float = (t_int - 1) / T = -1/T` does not lie in `[0, 1]` — against
the claim that both normalized timesteps lie in `[0, 1]`. -/
theorem c7_counterexample :
    0 < randintProb 500 0 ∧
    (applyNoiseTimesteps 500 0).sInt = (applyNoiseTimesteps 500 0).tInt - 1 ∧
    (applyNoiseTimesteps 500 0).sFloat = -(1 / 500) ∧
    ¬ (0 ≤ (applyNoiseTimesteps 500 0).sFloat ∧
       (applyNoiseTimesteps 500 0).sFloat ≤ 1) := by
  refine ⟨by norm_num [randintProb], rfl, ?_, ?_⟩
  · norm_num [applyNoiseTimesteps]
  · norm_num [applyNoiseTimesteps]

/-- Claim C7 amended: `t_int` is uniform over `{0, ..., T}` with probability
`1/(T+1)` each, `s_int = t_int - 1`, and both are divided by `T`;
`t_int / T` always lies in `[0, 1]`, while `s_int / T` lies in `[0, 1]`
exactly on the draws with `t_int ≥ 1` (at `t_int = 0` it is `-1/T`). -/
theorem c7_timesteps_amended (T draw : Nat) (hT : 1 ≤ T) (hdraw : draw ≤ T) :
    randintProb T draw = 1 / (T + 1) ∧
    (applyNoiseTimesteps T draw).sInt = (applyNoiseTimesteps T draw).tInt - 1 ∧
    (applyNoiseTimesteps T draw).tFloat = (draw : Rat) / T ∧
    0 ≤ (applyNoiseTimesteps T draw).tFloat ∧
    (applyNoiseTimesteps T draw).tFloat ≤ 1 ∧
    (applyNoiseTimesteps T draw).sFloat = ((draw : Rat) - 1) / T ∧
    (1 ≤ draw → 0 ≤ (applyNoiseTimesteps T draw).sFloat ∧
      (applyNoiseTimesteps T draw).sFloat ≤ 1) := by
  have hTpos : (0 : Rat) < T := by exact_mod_cast hT
  refine ⟨by simp [randintProb, hdraw], rfl, rfl, ?_, ?_, rfl, fun hd => ⟨?_, ?_⟩⟩
  · exact div_nonneg (by positivity) (le_of_lt hTpos)
  · rw [applyNoiseTimesteps, div_le_one hTpos]
    exact_mod_cast hdraw
  · have h1 : (1 : Rat) ≤ (draw : Rat) := by exact_mod_cast hd
    exact div_nonneg (by linarith) (le_of_lt hTpos)
  · rw [applyNoiseTimesteps, div_le_one hTpos]
    have : (draw : Rat) ≤ (T : Rat) := by exact_mod_cast hdraw
    linarith

/-- Witness for C7: the draw `t_int = 3` at `T = 500` has probability
`1/501` and a normalized `s_float` inside `[0, 1]`. -/
theorem c7_witness :
    randintProb 500 3 = 1 / (500 + 1) ∧
    0 ≤ (applyNoiseTimesteps 500 3).sFloat ∧
    (applyNoiseTimesteps 500 3).sFloat ≤ 1 :=
  ⟨(c7_timesteps_amended 500 3 (by decide) (by decide)).1,
   ((c7_timesteps_amended 500 3 (by decide) (by decide)).2.2.2.2.2.2 (by decide)).1,
   ((c7_timesteps_amended 500 3 (by decide) (by decide)).2.2.2.2.2.2 (by decide)).2⟩

/-- On rows whose unconditioned entries all reach the `1e-5` floor, the
code's guided row coincides with the un-clamped guidance formula before
renormalization. -/
lemma guideRowUnnorm_eq_of_ge (gamma : Int) (cond uncon : List Rat)
    (h : ∀ u ∈ uncon, floor5 ≤ u) :
    guideRowUnnorm gamma cond uncon =
      List.zipWith (fun c u => u * (c / u) ^ gamma) cond uncon := by
  induction cond generalizing uncon with
  | nil => simp [guideRowUnnorm]
  | cons c cs ih =>
    cases uncon with
    | nil => simp [guideRowUnnorm]
    | cons u us =>
      have hu : floor5 ≤ u := h u (by simp)
      have hrest : ∀ x ∈ us, floor5 ≤ x := fun x hx => h x (by simp [hx])
      have htail := ih us hrest
      simp only [guideRowUnnorm, List.zipWith_cons_cons] at htail ⊢
      rw [htail]
      simp [guideEntry, clampMin, max_eq_left hu]

/-- Claim C2 counterexample: with `guide_scale = 2` the guidance branch is taken,
but on a concrete pair of probability rows (an unconditioned entry below
`1e-5`) the code's guided row — which clamps the unconditioned denominator
and the normalizing sum at `1e-5` — differs from the claimed
`uncon * (cond / uncon) ** guide_scale` renormalized by the plain row
sum. -/
theorem c2_counterexample :
    guidanceActive (some 2) = true ∧
    guidanceStep (some 2) [1/2, 1/2] [1/200000, 199999/200000] =
      guideRowCode 2 [1/2, 1/2] [1/200000, 199999/200000] ∧
    guideRowCode 2 [1/2, 1/2] [1/200000, 199999/200000] ≠
      guideRowClaim 2 [1/2, 1/2] [1/200000, 199999/200000] := by
  refine ⟨rfl, rfl, ?_⟩
  intro h
  have h0 := congrArg (fun l => l.headD 0) h
  norm_num [guideRowCode, guideRowClaim, guideRowUnnorm, guideEntry,
    clampMin, floor5] at h0

/-- Claim C2 amended: the unconditioned pass is skipped and the conditioned
probabilities are used unchanged when `guide_scale` is `None` or `1`;
otherwise the network runs twice and each row becomes
`uncon * (cond / max(uncon, 1e-5)) ** guide_scale`, divided by the row sum
clamped below at `1e-5`. Whenever every unconditioned entry is at least
`1e-5` and the guided row sum is at least `1e-5`, this equals the claimed
formula and the renormalized row sums to one. -/
theorem c2_guidance_amended (gamma : Int) (cond uncon : List Rat) :
    (guidanceStep none cond uncon = cond ∧ networkPasses none = 1) ∧
    (guidanceStep (some 1) cond uncon = cond ∧ networkPasses (some 1) = 1) ∧
    (gamma ≠ 1 →
      guidanceStep (some gamma) cond uncon = guideRowCode gamma cond uncon ∧
      networkPasses (some gamma) = 2) ∧
    ((∀ u ∈ uncon, floor5 ≤ u) →
      floor5 ≤ (guideRowUnnorm gamma cond uncon).sum →
      guideRowCode gamma cond uncon = guideRowClaim gamma cond uncon ∧
      (guideRowCode gamma cond uncon).sum = 1) := by
  refine ⟨⟨rfl, rfl⟩, ⟨by simp [guidanceStep], by simp [networkPasses, guidanceActive]⟩,
    fun hg => ⟨by simp [guidanceStep, hg], by simp [networkPasses, guidanceActive, hg]⟩,
    fun hu hsum => ?_⟩
  have hfloor : (0 : Rat) < floor5 := by norm_num [floor5]
  have hclamp : clampMin (guideRowUnnorm gamma cond uncon).sum floor5 =
      (guideRowUnnorm gamma cond uncon).sum := max_eq_left hsum
  have hne : (guideRowUnnorm gamma cond uncon).sum ≠ 0 :=
    ne_of_gt (lt_of_lt_of_le hfloor hsum)
  constructor
  · rw [guideRowCode, guideRowClaim, hclamp, guideRowUnnorm_eq_of_ge gamma cond uncon hu]
  · rw [guideRowCode, hclamp, sum_map_div, div_self hne]

/-- Witness for C2 amended: at `guide_scale = 2` with uniform conditioned
and unconditioned rows, the guided row matches the claimed formula and sums
to one, and the network runs twice. -/
theorem c2_witness :
    guidanceStep (some 2) [1/2, 1/2] [1/2, 1/2] = guideRowCode 2 [1/2, 1/2] [1/2, 1/2] ∧
    networkPasses (some 2) = 2 ∧
    guideRowCode 2 [1/2, 1/2] [1/2, 1/2] = guideRowClaim 2 [1/2, 1/2] [1/2, 1/2] ∧
    (guideRowCode 2 [1/2, 1/2] [1/2, 1/2]).sum = 1 :=
  ⟨((c2_guidance_amended 2 [1/2, 1/2] [1/2, 1/2]).2.2.1 (by decide)).1,
   ((c2_guidance_amended 2 [1/2, 1/2] [1/2, 1/2]).2.2.1 (by decide)).2,
   ((c2_guidance_amended 2 [1/2, 1/2] [1/2, 1/2]).2.2.2 (by norm_num [floor5])
      (by norm_num [guideRowUnnorm, guideEntry, clampMin, floor5])).1,
   ((c2_guidance_amended 2 [1/2, 1/2] [1/2, 1/2]).2.2.2 (by norm_num [floor5])
      (by norm_num [guideRowUnnorm, guideEntry, clampMin, floor5])).2⟩

/-- Claim C3: the symmetry asserts guarantee the invariant — any edge tensor that
survives the initialization assert (line 408) or a reverse-sampling step's
assert (line 516) is symmetric at every node pair, and both stages succeed
whenever the categorical draw itself is symmetric. -/
theorem c3_edge_tensor_symmetric (n dX dE : Nat) (m : Fin n → Bool)
    (drawX sX : Fin n → Nat) (drawE sE : Fin n → Fin n → Nat) :
    (∀ out, generateInit dX dE m drawX drawE = .ok out →
      ∀ i j k, out.E i j k = out.E j i k) ∧
    (∀ out, samplePZsTail dX dE m sX sE = .ok out →
      ∀ i j k, out.E i j k = out.E j i k) ∧
    ((∀ i j, drawE i j = drawE j i) →
      generateInit dX dE m drawX drawE = .ok (sampleLimitNoise dX dE m drawX drawE)) ∧
    ((∀ i j, sE i j = sE j i) →
      samplePZsTail dX dE m sX sE =
        .ok { X := maskX m (oneHotX dX sX), E := maskE m (oneHotE dE sE) }) := by
  refine ⟨fun out hout => ?_, fun out hout => ?_, fun hsym => ?_, fun hsym => ?_⟩
  · dsimp [generateInit] at hout
    split at hout
    · cases hout
      next h => exact (symmE_iff _).mp h
    · cases hout
  · dsimp [samplePZsTail] at hout
    split at hout
    · cases hout
      next h =>
        exact maskE_symm m _ ((symmE_iff _).mp h)
    · cases hout
  · have h : symmE (sampleLimitNoise dX dE m drawX drawE).E = true :=
      (symmE_iff _).mpr (maskE_symm m _ (oneHotE_symm dE drawE hsym))
    dsimp [generateInit]
    rw [if_pos h]
  · have h : symmE (oneHotE dE sE (n := n)) = true :=
      (symmE_iff _).mpr (oneHotE_symm dE sE hsym)
    dsimp [samplePZsTail]
    rw [if_pos h]

/-- Witness for C3: with two nodes, all-valid mask and the constant-zero
symmetric draw, initialization succeeds and the resulting edge tensor is
symmetric at the node pair `(0, 1)`. -/
theorem c3_witness :
    (sampleLimitNoise 2 2 (fun _ : Fin 2 => true) (fun _ => 0) (fun _ _ => 0)).E 0 1 0 =
      (sampleLimitNoise 2 2 (fun _ : Fin 2 => true) (fun _ => 0) (fun _ _ => 0)).E 1 0 0 :=
  (c3_edge_tensor_symmetric 2 2 2 (fun _ => true) (fun _ => 0) (fun _ => 0)
      (fun _ _ => 0) (fun _ _ => 0)).1
    (sampleLimitNoise 2 2 (fun _ => true) (fun _ => 0) (fun _ _ => 0))
    ((c3_edge_tensor_symmetric 2 2 2 (fun _ => true) (fun _ => 0) (fun _ => 0)
        (fun _ _ => 0) (fun _ _ => 0)).2.2.1 (fun _ _ => rfl))
    0 1 0

/-- Claim C1 (code bug): the reverse loop of `generate` is scheduled to perform
exactly `T` denoising steps with `t = T, ..., 1` and `s = t - 1`, but even
on an estimator whose `limit_dist` and `atom_decoder` attributes are both
present and whose initial noise draw is symmetric, the run with `T ≥ 1`
aborts at the first denoising step with the `text_embedding` `NameError`
instead of completing the `T` steps and collapsing at `t = 0`. -/
theorem c1_generate_aborts_at_first_step (n dX dE : Nat) (st : GraphDITState)
    (T : Nat) (hT : 1 ≤ T) (m : Fin n → Bool) (drawX : Fin n → Nat)
    (drawE : Fin n → Fin n → Nat)
    (hl : st.limitDist ≠ none) (ha : st.atomDecoder ≠ none)
    (hsym : ∀ i j, drawE i j = drawE j i) :
    generateRun dX dE st T m drawX drawE = .error (.nameError "text_embedding") ∧
    (generateSchedule T).length = T ∧
    (∀ i, i < T → (generateSchedule T)[i]? = some (T - i, T - i - 1)) := by
  obtain ⟨ld, hld⟩ := Option.ne_none_iff_exists'.mp hl
  obtain ⟨ad, had⟩ := Option.ne_none_iff_exists'.mp ha
  obtain ⟨T', rfl⟩ : ∃ T', T = T' + 1 := ⟨T - 1, by omega⟩
  have hcheck : generateCheckSetup st = .ok () := by
    simp [generateCheckSetup, hld, had]
  have hz : symmE (sampleLimitNoise dX dE m drawX drawE).E = true :=
    (symmE_iff _).mpr (maskE_symm m _ (oneHotE_symm dE drawE hsym))
  have hinit : generateInit dX dE m drawX drawE =
      .ok (sampleLimitNoise dX dE m drawX drawE) := by
    dsimp [generateInit]
    rw [if_pos hz]
  have hlen : (generateSchedule (T' + 1)).length = T' + 1 := by
    simp [generateSchedule, generateScheduleS]
  refine ⟨?_, hlen, fun i hi => ?_⟩
  · have hne : generateSchedule (T' + 1) ≠ [] := by
      intro hnil
      rw [hnil] at hlen
      exact absurd hlen (by simp)
    unfold generateRun
    rw [hcheck, hinit]
    dsimp only
    rw [foldlM_samplePZs_error _ hne]
    rfl
  · have h1 : (List.range (T' + 1)).reverse[i]? = some (T' + 1 - 1 - i) := by
      rw [List.getElem?_reverse (by simpa using hi), List.length_range,
        List.getElem?_range (by omega)]
    have h2 : T' + 1 - 1 - i + 1 = T' + 1 - i := by omega
    have h3 : T' + 1 - 1 - i = T' + 1 - i - 1 := by omega
    simp only [generateSchedule, generateScheduleS, List.getElem?_map, h1,
      Option.map_some']
    rw [h2, h3]

/-- The concrete estimator state for the C1 witness: both late-bound
attributes present. -/
def c1WitnessState : GraphDITState :=
  { constructedGraphDIT 1 1 1 with
    limitDist := some ([1], [1]), atomDecoder := some ["C"] }

/-- Witness for C1: on a fully prepared single-node estimator with one
timestep, generation still aborts with the `text_embedding` `NameError`. -/
theorem c1_witness :
    generateRun 1 1 c1WitnessState 1 (fun _ : Fin 1 => true) (fun _ => 0)
      (fun _ _ => 0) = .error (.nameError "text_embedding") :=
  (c1_generate_aborts_at_first_step 1 1 1 c1WitnessState 1 (by decide)
      (fun _ => true) (fun _ => 0) (fun _ _ => 0)
      (by simp [c1WitnessState])
      (by simp [c1WitnessState])
      (fun _ _ => rfl)).1

end TorchMolecule
